import Mathlib

/-!
# Verification of the windowed-list virtualization computation

This file embeds the windowing computation documented in
`src/content/posts/virtualizing-react.mdx` (the `Pure` component of the
"Virtualizing React" article) and proves or refutes the specified properties.

The source computes, from a scroll offset `scrollTop`, the contiguous index
range of items to materialize:

  startIndex = Math.max(0, Math.floor(scrollTop / ITEM_HEIGHT) - BUFFER_ITEMS)
  endIndex   = Math.min(ALL_ITEMS.length,
                        Math.ceil((scrollTop + VIEWPORT_HEIGHT) / ITEM_HEIGHT)
                          + BUFFER_ITEMS)

and renders the window at `top: startIndex * ITEM_HEIGHT` inside a spacer of
height `ALL_ITEMS.length * ITEM_HEIGHT`.  The article instantiates the
constants `ITEM_HEIGHT = 32`, `BUFFER_ITEMS = 20`, `TOTAL_ITEMS = 500`,
`VIEWPORT_HEIGHT = 300`; the computation itself is uniform in them, so we
embed it parameterized by those quantities.  Numeric inputs (scroll offset,
viewport height, item height) are modelled as exact rationals, indices as
integers, the item count and buffer count as natural numbers.
-/

/-- The result of one windowing computation: the materialized index range
`[startIndex, endIndex)`, the pixel offset of the rendered window and the
height of the full-height spacer. -/
structure WindowResult where
  startIndex : ℤ
  endIndex : ℤ
  offsetTop : ℚ
  totalHeight : ℚ
deriving DecidableEq, Repr

/-- Shallow embedding of the windowing computation of the `Pure` component in
`src/content/posts/virtualizing-react.mdx`:

* `startIndex = Math.max(0, Math.floor(scrollTop / ITEM_HEIGHT) - BUFFER_ITEMS)`
* `endIndex = Math.min(ALL_ITEMS.length, Math.ceil((scrollTop + VIEWPORT_HEIGHT) / ITEM_HEIGHT) + BUFFER_ITEMS)`
* `offsetTop` is the `top: startIndex * ITEM_HEIGHT` style of the items container,
* `totalHeight` is the `height: ALL_ITEMS.length * ITEM_HEIGHT` spacer style.

`N` is `ALL_ITEMS.length`, `scrollTop` the tracked scroll offset. -/
def computeWindow (N : ℕ) (itemHeight : ℚ) (bufferItems : ℕ)
    (viewportHeight scrollTop : ℚ) : WindowResult :=
  let startIndex : ℤ := max 0 (⌊scrollTop / itemHeight⌋ - bufferItems)
  let endIndex : ℤ :=
    min (N : ℤ) (⌈(scrollTop + viewportHeight) / itemHeight⌉ + bufferItems)
  { startIndex := startIndex
    endIndex := endIndex
    offsetTop := startIndex * itemHeight
    totalHeight := (N : ℚ) * itemHeight }

/-- The reference algorithm exactly as the specification words it
(`rawStart`/`rawEnd` followed by two `clamp` steps); written only to be
compared with `computeWindow`, which is the embedding of the code. -/
def specWindow (N : ℕ) (itemHeight : ℚ) (bufferCount : ℕ)
    (viewportHeight scrollOffset : ℚ) : WindowResult :=
  let rawStart : ℤ := ⌊scrollOffset / itemHeight⌋ - bufferCount
  let rawEnd : ℤ := ⌈(scrollOffset + viewportHeight) / itemHeight⌉ + bufferCount
  let startIndex : ℤ := min (max rawStart 0) (N : ℤ)
  let endIndex : ℤ := min (max rawEnd startIndex) (N : ℤ)
  { startIndex := startIndex
    endIndex := endIndex
    offsetTop := startIndex * itemHeight
    totalHeight := (N : ℚ) * itemHeight }

/-- Ceilings of rationals in terms of floors, so that concrete ceilings can be
evaluated by `norm_num` (which has a floor extension). -/
lemma rat_ceil_eq_neg_floor_neg (a : ℚ) : ⌈a⌉ = -⌊-a⌋ := by
  rw [Int.floor_neg, neg_neg]

lemma computeWindow_startIndex (N : ℕ) (itemHeight : ℚ) (bufferItems : ℕ)
    (viewportHeight scrollTop : ℚ) :
    (computeWindow N itemHeight bufferItems viewportHeight scrollTop).startIndex =
      max 0 (⌊scrollTop / itemHeight⌋ - bufferItems) := rfl

lemma computeWindow_endIndex (N : ℕ) (itemHeight : ℚ) (bufferItems : ℕ)
    (viewportHeight scrollTop : ℚ) :
    (computeWindow N itemHeight bufferItems viewportHeight scrollTop).endIndex =
      min (N : ℤ) (⌈(scrollTop + viewportHeight) / itemHeight⌉ + bufferItems) := rfl

/-- The raw (unclamped) start bound never exceeds the raw end bound when the
viewport height is nonnegative. -/
lemma rawStart_le_rawEnd (itemHeight : ℚ) (b : ℕ) (v s : ℚ)
    (hh : 0 < itemHeight) (hv : 0 ≤ v) :
    ⌊s / itemHeight⌋ - (b : ℤ) ≤ ⌈(s + v) / itemHeight⌉ + b := by
  have h1 : s / itemHeight ≤ (s + v) / itemHeight := by gcongr; linarith
  have h2 : ⌊s / itemHeight⌋ ≤ ⌈(s + v) / itemHeight⌉ :=
    le_trans (Int.floor_mono h1) (Int.floor_le_ceil _)
  omega

/-- The raw end bound is nonnegative for nonnegative scroll offset and
viewport height. -/
lemma rawEnd_nonneg (itemHeight : ℚ) (b : ℕ) (v s : ℚ)
    (hh : 0 < itemHeight) (hs : 0 ≤ s) (hv : 0 ≤ v) :
    0 ≤ ⌈(s + v) / itemHeight⌉ + (b : ℤ) := by
  have h1 : (0 : ℚ) ≤ (s + v) / itemHeight := by positivity
  have h2 : 0 ≤ ⌈(s + v) / itemHeight⌉ := Int.ceil_nonneg h1
  omega

/-- The computed start index is monotone in the scroll offset. -/
lemma startIndex_mono (N : ℕ) (itemHeight : ℚ) (b : ℕ) (v : ℚ) {s₁ s₂ : ℚ}
    (hh : 0 < itemHeight) (hs : s₁ ≤ s₂) :
    (computeWindow N itemHeight b v s₁).startIndex ≤
      (computeWindow N itemHeight b v s₂).startIndex := by
  rw [computeWindow_startIndex, computeWindow_startIndex]
  have h1 : ⌊s₁ / itemHeight⌋ ≤ ⌊s₂ / itemHeight⌋ := Int.floor_mono (by gcongr)
  omega

/-- The computed end index is monotone in the scroll offset. -/
lemma endIndex_mono (N : ℕ) (itemHeight : ℚ) (b : ℕ) (v : ℚ) {s₁ s₂ : ℚ}
    (hh : 0 < itemHeight) (hs : s₁ ≤ s₂) :
    (computeWindow N itemHeight b v s₁).endIndex ≤
      (computeWindow N itemHeight b v s₂).endIndex := by
  rw [computeWindow_endIndex, computeWindow_endIndex]
  have h1 : ⌈(s₁ + v) / itemHeight⌉ ≤ ⌈(s₂ + v) / itemHeight⌉ :=
    Int.ceil_mono (by gcongr)
  omega

/-- Claim C7: for fixed N, itemHeight > 0, bufferCount and viewportHeight, the
windowing computation is monotone in the scroll offset: a larger scroll offset
never yields a smaller startIndex or endIndex. -/
theorem window_monotone_in_scroll (N : ℕ) (itemHeight : ℚ) (b : ℕ) (v : ℚ)
    (s₁ s₂ : ℚ) (hh : 0 < itemHeight) (hv : 0 ≤ v) (hs : s₁ ≤ s₂) :
    (computeWindow N itemHeight b v s₁).startIndex ≤
        (computeWindow N itemHeight b v s₂).startIndex ∧
      (computeWindow N itemHeight b v s₁).endIndex ≤
        (computeWindow N itemHeight b v s₂).endIndex :=
  ⟨startIndex_mono N itemHeight b v hh hs, endIndex_mono N itemHeight b v hh hs⟩

/-- Witness for C7 at N=500, itemHeight=32, bufferCount=20, viewportHeight=300,
scrollOffsets 3200 ≤ 6400. -/
theorem window_monotone_in_scroll_witness :
    (0 : ℚ) < 32 ∧ (0 : ℚ) ≤ 300 ∧ (3200 : ℚ) ≤ 6400 ∧
      ((computeWindow 500 32 20 300 3200).startIndex ≤
          (computeWindow 500 32 20 300 6400).startIndex ∧
        (computeWindow 500 32 20 300 3200).endIndex ≤
          (computeWindow 500 32 20 300 6400).endIndex) :=
  ⟨by norm_num, by norm_num, by norm_num,
    window_monotone_in_scroll 500 32 20 300 3200 6400 (by norm_num) (by norm_num)
      (by norm_num)⟩

/-- Claim C9: for every input, the returned offsetTop equals
startIndex * itemHeight and the returned totalHeight equals N * itemHeight. -/
theorem window_layout_invariants (N : ℕ) (itemHeight : ℚ) (b : ℕ) (v s : ℚ)
    (hh : 0 < itemHeight) :
    (computeWindow N itemHeight b v s).offsetTop =
        ((computeWindow N itemHeight b v s).startIndex : ℚ) * itemHeight ∧
      (computeWindow N itemHeight b v s).totalHeight = (N : ℚ) * itemHeight :=
  ⟨rfl, rfl⟩

/-- Witness for C9 at N=500, itemHeight=32, bufferCount=20, viewportHeight=300,
scrollOffset=3200. -/
theorem window_layout_invariants_witness :
    (0 : ℚ) < 32 ∧
      ((computeWindow 500 32 20 300 3200).offsetTop =
          ((computeWindow 500 32 20 300 3200).startIndex : ℚ) * 32 ∧
        (computeWindow 500 32 20 300 3200).totalHeight = (500 : ℚ) * 32) :=
  ⟨by norm_num, window_layout_invariants 500 32 20 300 3200 (by norm_num)⟩

/-- Claim C3: every geometrically visible index — every i with 0 ≤ i < N,
i * itemHeight < scrollOffset + viewportHeight and
(i+1) * itemHeight > scrollOffset — lies in [startIndex, endIndex): the buffer
only ever adds indices, it never removes a visible one. -/
theorem visible_index_in_window (N : ℕ) (itemHeight : ℚ) (b : ℕ) (v s : ℚ)
    (i : ℤ) (hh : 0 < itemHeight) (hs : 0 ≤ s) (hv : 0 ≤ v)
    (hi0 : 0 ≤ i) (hiN : i < (N : ℤ))
    (hvis1 : (i : ℚ) * itemHeight < s + v)
    (hvis2 : s < ((i : ℚ) + 1) * itemHeight) :
    (computeWindow N itemHeight b v s).startIndex ≤ i ∧
      i < (computeWindow N itemHeight b v s).endIndex := by
  constructor
  · rw [computeWindow_startIndex]
    have h1 : s / itemHeight < ((i : ℚ) + 1) := by
      rw [div_lt_iff hh]; linarith
    have h2 : ⌊s / itemHeight⌋ < i + 1 := by
      apply Int.floor_lt.mpr; push_cast; linarith
    omega
  · rw [computeWindow_endIndex]
    have h1 : (i : ℚ) < (s + v) / itemHeight := by
      rw [lt_div_iff hh]; linarith
    have h2 : i < ⌈(s + v) / itemHeight⌉ := Int.lt_ceil.mpr h1
    omega

/-- Witness for C3: item 100 is visible at N=500, itemHeight=32, bufferCount=20,
viewportHeight=300, scrollOffset=3200, and lies inside the window. -/
theorem visible_index_in_window_witness :
    (0 : ℚ) < 32 ∧ (0 : ℚ) ≤ 3200 ∧ (0 : ℚ) ≤ 300 ∧
      (0 : ℤ) ≤ 100 ∧ (100 : ℤ) < 500 ∧
      ((100 : ℚ)) * 32 < 3200 + 300 ∧ (3200 : ℚ) < ((100 : ℚ) + 1) * 32 ∧
      ((computeWindow 500 32 20 300 3200).startIndex ≤ 100 ∧
        (100 : ℤ) < (computeWindow 500 32 20 300 3200).endIndex) :=
  ⟨by norm_num, by norm_num, by norm_num, by norm_num, by norm_num, by norm_num,
    by norm_num,
    visible_index_in_window 500 32 20 300 3200 100 (by norm_num) (by norm_num)
      (by norm_num) (by norm_num) (by norm_num) (by norm_num) (by norm_num)⟩

/-- Claim C10: the number of materialized items, endIndex - startIndex, is at
most ceil(viewportHeight / itemHeight) + 2 * bufferCount + 1, a bound
independent of N. -/
theorem window_size_bound (N : ℕ) (itemHeight : ℚ) (b : ℕ) (v s : ℚ)
    (hh : 0 < itemHeight) (hs : 0 ≤ s) (hv : 0 ≤ v) :
    (computeWindow N itemHeight b v s).endIndex -
        (computeWindow N itemHeight b v s).startIndex ≤
      ⌈v / itemHeight⌉ + 2 * b + 1 := by
  rw [computeWindow_startIndex, computeWindow_endIndex]
  have h1 : ⌈(s + v) / itemHeight⌉ ≤ ⌈s / itemHeight⌉ + ⌈v / itemHeight⌉ := by
    rw [add_div]; exact Int.ceil_add_le _ _
  have h2 : ⌈s / itemHeight⌉ ≤ ⌊s / itemHeight⌋ + 1 :=
    Int.ceil_le_floor_add_one _
  omega

/-- Witness for C10 at N=500, itemHeight=32, bufferCount=20, viewportHeight=300,
scrollOffset=3200: the window holds 50 items, within the bound 51. -/
theorem window_size_bound_witness :
    (0 : ℚ) < 32 ∧ (0 : ℚ) ≤ 3200 ∧ (0 : ℚ) ≤ 300 ∧
      (computeWindow 500 32 20 300 3200).endIndex -
          (computeWindow 500 32 20 300 3200).startIndex ≤
        ⌈(300 : ℚ) / 32⌉ + 2 * 20 + 1 :=
  ⟨by norm_num, by norm_num, by norm_num,
    window_size_bound 500 32 20 300 3200 (by norm_num) (by norm_num) (by norm_num)⟩

/-- Claim C1 fails as stated: at N=10, itemHeight=32, bufferCount=20,
viewportHeight=300, scrollOffset=100000 — inputs satisfying every hypothesis of
the claim — the code returns startIndex = 3105 and endIndex = 10, so
startIndex ≤ endIndex does not hold: the code clamps startIndex only from
below by 0, never from above by N. -/
theorem window_range_bounds_counterexample :
    (0 : ℚ) < 32 ∧ (0 : ℚ) ≤ 100000 ∧ (0 : ℚ) ≤ 300 ∧
      ¬ ((computeWindow 10 32 20 300 100000).startIndex ≤
          (computeWindow 10 32 20 300 100000).endIndex) := by
  refine ⟨by norm_num, by norm_num, by norm_num, ?_⟩
  norm_num [computeWindow, rat_ceil_eq_neg_floor_neg]

/-- Claim C1 (amended): for N ≥ 0, itemHeight > 0, bufferCount ≥ 0,
scrollOffset ≥ 0 and viewportHeight ≥ 0, 0 ≤ startIndex and endIndex ≤ N always
hold, and startIndex ≤ endIndex holds provided
floor(scrollOffset/itemHeight) - bufferCount ≤ N (true in particular whenever
scrollOffset ≤ N * itemHeight, i.e. whenever the scroll offset is within the
content height). -/
theorem window_range_bounds (N : ℕ) (itemHeight : ℚ) (b : ℕ) (v s : ℚ)
    (hh : 0 < itemHeight) (hs : 0 ≤ s) (hv : 0 ≤ v) :
    0 ≤ (computeWindow N itemHeight b v s).startIndex ∧
      (computeWindow N itemHeight b v s).endIndex ≤ (N : ℤ) ∧
      (⌊s / itemHeight⌋ - (b : ℤ) ≤ (N : ℤ) →
        (computeWindow N itemHeight b v s).startIndex ≤
          (computeWindow N itemHeight b v s).endIndex) := by
  rw [computeWindow_startIndex, computeWindow_endIndex]
  have h1 := rawStart_le_rawEnd itemHeight b v s hh hv
  have h2 := rawEnd_nonneg itemHeight b v s hh hs hv
  omega

/-- Witness for the amended C1 at N=500, itemHeight=32, bufferCount=20,
viewportHeight=300, scrollOffset=3200. -/
theorem window_range_bounds_witness :
    ((0 : ℚ) < 32 ∧ (0 : ℚ) ≤ 3200 ∧ (0 : ℚ) ≤ 300) ∧
      (0 ≤ (computeWindow 500 32 20 300 3200).startIndex ∧
        (computeWindow 500 32 20 300 3200).endIndex ≤ ((500 : ℕ) : ℤ) ∧
        (⌊(3200 : ℚ) / 32⌋ - ((20 : ℕ) : ℤ) ≤ ((500 : ℕ) : ℤ) →
          (computeWindow 500 32 20 300 3200).startIndex ≤
            (computeWindow 500 32 20 300 3200).endIndex)) :=
  ⟨⟨by norm_num, by norm_num, by norm_num⟩,
    window_range_bounds 500 32 20 300 3200 (by norm_num) (by norm_num)
      (by norm_num)⟩

/-- Claim C2 fails as stated: at N=10, itemHeight=32, bufferCount=20,
viewportHeight=300, scrollOffset=100000 the code returns startIndex = 3105
while the spec's clamp-based reference algorithm returns startIndex = 10. -/
theorem window_matches_spec_counterexample :
    computeWindow 10 32 20 300 100000 ≠ specWindow 10 32 20 300 100000 := by
  norm_num [computeWindow, specWindow, rat_ceil_eq_neg_floor_neg,
    WindowResult.mk.injEq]

/-- Claim C2 (amended): whenever scrollOffset ≥ 0, viewportHeight ≥ 0 and
floor(scrollOffset/itemHeight) - bufferCount ≤ N, the code computes exactly the
spec's reference algorithm; in particular at N=500, itemHeight=32,
bufferCount=20, viewportHeight=300, scrollOffset=3200 it returns
startIndex=80, endIndex=130, offsetTop=2560 (and totalHeight=16000). -/
theorem window_matches_spec (N : ℕ) (itemHeight : ℚ) (b : ℕ) (v s : ℚ)
    (hh : 0 < itemHeight) (hs : 0 ≤ s) (hv : 0 ≤ v)
    (hr : ⌊s / itemHeight⌋ - (b : ℤ) ≤ (N : ℤ)) :
    computeWindow N itemHeight b v s = specWindow N itemHeight b v s ∧
      computeWindow 500 32 20 300 3200 =
        { startIndex := 80, endIndex := 130, offsetTop := 2560,
          totalHeight := 16000 } := by
  constructor
  · have h1 := rawStart_le_rawEnd itemHeight b v s hh hv
    have h2 := rawEnd_nonneg itemHeight b v s hh hs hv
    have hstart : max 0 (⌊s / itemHeight⌋ - (b : ℤ)) =
        min (max (⌊s / itemHeight⌋ - (b : ℤ)) 0) (N : ℤ) := by omega
    have hend : min ((N : ℕ) : ℤ) (⌈(s + v) / itemHeight⌉ + (b : ℤ)) =
        min (max (⌈(s + v) / itemHeight⌉ + (b : ℤ))
          (min (max (⌊s / itemHeight⌋ - (b : ℤ)) 0) (N : ℤ))) ((N : ℕ) : ℤ) := by
      omega
    simp only [computeWindow, specWindow, WindowResult.mk.injEq]
    exact ⟨hstart, hend, by rw [hstart], trivial⟩
  · norm_num [computeWindow, rat_ceil_eq_neg_floor_neg]

/-- Witness for the amended C2 at N=500, itemHeight=32, bufferCount=20,
viewportHeight=300, scrollOffset=3200. -/
theorem window_matches_spec_witness :
    ((0 : ℚ) < 32 ∧ (0 : ℚ) ≤ 3200 ∧ (0 : ℚ) ≤ 300 ∧
        ⌊(3200 : ℚ) / 32⌋ - ((20 : ℕ) : ℤ) ≤ ((500 : ℕ) : ℤ)) ∧
      (computeWindow 500 32 20 300 3200 = specWindow 500 32 20 300 3200 ∧
        computeWindow 500 32 20 300 3200 =
          { startIndex := 80, endIndex := 130, offsetTop := 2560,
            totalHeight := 16000 }) :=
  ⟨⟨by norm_num, by norm_num, by norm_num, by norm_num⟩,
    window_matches_spec 500 32 20 300 3200 (by norm_num) (by norm_num)
      (by norm_num) (by norm_num)⟩

/-- Claim C5 fails as stated: at N=0, itemHeight=1, bufferCount=0,
viewportHeight=0, scrollOffset=5 the code returns startIndex = 5 and
offsetTop = 5, not the all-zero result, because startIndex is never clamped
from above by N. -/
theorem empty_list_window_counterexample :
    computeWindow 0 1 0 0 5 ≠
      { startIndex := 0, endIndex := 0, offsetTop := 0, totalHeight := 0 } := by
  norm_num [computeWindow, WindowResult.mk.injEq]

/-- Claim C5 (amended): for N = 0, itemHeight > 0, bufferCount ≥ 0,
scrollOffset ≥ 0 and viewportHeight ≥ 0, the result is {0, 0, 0, 0} provided
floor(scrollOffset/itemHeight) ≤ bufferCount — in particular at every scroll
offset below (bufferCount+1) * itemHeight, and always at scrollOffset = 0, the
only offset an empty scroll container can actually attain. -/
theorem empty_list_window (itemHeight : ℚ) (b : ℕ) (v s : ℚ)
    (hh : 0 < itemHeight) (hs : 0 ≤ s) (hv : 0 ≤ v)
    (hcl : ⌊s / itemHeight⌋ ≤ (b : ℤ)) :
    computeWindow 0 itemHeight b v s =
      { startIndex := 0, endIndex := 0, offsetTop := 0, totalHeight := 0 } := by
  have h2 := rawEnd_nonneg itemHeight b v s hh hs hv
  have hstart : max 0 (⌊s / itemHeight⌋ - (b : ℤ)) = 0 := by omega
  simp only [computeWindow, WindowResult.mk.injEq, Nat.cast_zero]
  refine ⟨hstart, by omega, by rw [hstart]; norm_num, by norm_num⟩

/-- Witness for the amended C5 at itemHeight=32, bufferCount=20,
viewportHeight=300, scrollOffset=0. -/
theorem empty_list_window_witness :
    ((0 : ℚ) < 32 ∧ (0 : ℚ) ≤ 0 ∧ (0 : ℚ) ≤ 300 ∧
        ⌊(0 : ℚ) / 32⌋ ≤ ((20 : ℕ) : ℤ)) ∧
      computeWindow 0 32 20 300 0 =
        { startIndex := 0, endIndex := 0, offsetTop := 0, totalHeight := 0 } :=
  ⟨⟨by norm_num, by norm_num, by norm_num, by norm_num⟩,
    empty_list_window 32 20 300 0 (by norm_num) (by norm_num) (by norm_num)
      (by norm_num)⟩

/-- Claim C6 fails as stated: at N=500, itemHeight=32, bufferCount=20,
viewportHeight=300 the result for scrollOffset = -50 differs from the result
for scrollOffset = 0 — the code feeds the raw negative offset into the
endIndex computation, giving endIndex = 28 instead of 30; only startIndex is
clamped (by the outer max with 0). -/
theorem negative_scroll_counterexample :
    computeWindow 500 32 20 300 (-50) ≠ computeWindow 500 32 20 300 0 := by
  norm_num [computeWindow, rat_ceil_eq_neg_floor_neg, WindowResult.mk.injEq]

/-- Claim C6 (amended): for every negative scrollOffset (with itemHeight > 0,
viewportHeight ≥ 0), startIndex is 0 — equal to its value at scrollOffset = 0
and never negative, with the out-of-range value silently absorbed rather than
surfaced as an error — but endIndex is computed from the raw negative offset
and can only be at most its value at scrollOffset = 0. -/
theorem negative_scroll_clamped (N : ℕ) (itemHeight : ℚ) (b : ℕ) (v s : ℚ)
    (hh : 0 < itemHeight) (hv : 0 ≤ v) (hs : s < 0) :
    (computeWindow N itemHeight b v s).startIndex = 0 ∧
      (computeWindow N itemHeight b v s).startIndex =
        (computeWindow N itemHeight b v 0).startIndex ∧
      (computeWindow N itemHeight b v s).endIndex ≤
        (computeWindow N itemHeight b v 0).endIndex := by
  have hdiv : s / itemHeight < 0 := div_neg_of_neg_of_pos hs hh
  have hneg : ⌊s / itemHeight⌋ < 0 :=
    not_le.mp fun hcon => absurd (Int.floor_nonneg.mp hcon) (not_le.mpr hdiv)
  refine ⟨?_, ?_, endIndex_mono N itemHeight b v hh (le_of_lt hs)⟩
  · rw [computeWindow_startIndex]; omega
  · rw [computeWindow_startIndex, computeWindow_startIndex, zero_div,
      Int.floor_zero]
    omega

/-- Witness for the amended C6 at N=500, itemHeight=32, bufferCount=20,
viewportHeight=300, scrollOffset=-50. -/
theorem negative_scroll_clamped_witness :
    ((0 : ℚ) < 32 ∧ (0 : ℚ) ≤ 300 ∧ (-50 : ℚ) < 0) ∧
      ((computeWindow 500 32 20 300 (-50)).startIndex = 0 ∧
        (computeWindow 500 32 20 300 (-50)).startIndex =
          (computeWindow 500 32 20 300 0).startIndex ∧
        (computeWindow 500 32 20 300 (-50)).endIndex ≤
          (computeWindow 500 32 20 300 0).endIndex) :=
  ⟨⟨by norm_num, by norm_num, by norm_num⟩,
    negative_scroll_clamped 500 32 20 300 (-50) (by norm_num) (by norm_num)
      (by norm_num)⟩

/-- Claim C8: scrollOffset = 0 yields startIndex = 0; and when
viewportHeight ≤ N * itemHeight, the maximum valid scroll offset
N * itemHeight - viewportHeight yields endIndex = N. -/
theorem window_boundary (N : ℕ) (itemHeight : ℚ) (b : ℕ) (v : ℚ)
    (hh : 0 < itemHeight) (hv : 0 ≤ v) :
    (computeWindow N itemHeight b v 0).startIndex = 0 ∧
      (v ≤ (N : ℚ) * itemHeight →
        (computeWindow N itemHeight b v
          ((N : ℚ) * itemHeight - v)).endIndex = (N : ℤ)) := by
  constructor
  · rw [computeWindow_startIndex, zero_div, Int.floor_zero]; omega
  · intro hfit
    rw [computeWindow_endIndex]
    have harg : ((N : ℚ) * itemHeight - v + v) = (N : ℚ) * itemHeight := by ring
    rw [harg, mul_div_assoc, div_self (ne_of_gt hh), mul_one, Int.ceil_natCast]
    omega

/-- Witness for C8 at N=500, itemHeight=32, bufferCount=20,
viewportHeight=300. -/
theorem window_boundary_witness :
    ((0 : ℚ) < 32 ∧ (0 : ℚ) ≤ 300) ∧
      ((computeWindow 500 32 20 300 0).startIndex = 0 ∧
        ((300 : ℚ) ≤ ((500 : ℕ) : ℚ) * 32 →
          (computeWindow 500 32 20 300
            (((500 : ℕ) : ℚ) * 32 - 300)).endIndex = ((500 : ℕ) : ℤ))) :=
  ⟨⟨by norm_num, by norm_num⟩,
    window_boundary 500 32 20 300 (by norm_num) (by norm_num)⟩

/-- Error taxonomy of the configuration boundary.  Modelled from the spec: the
article's component instantiates its layout constants literally
(`ITEM_HEIGHT = 32`, `TOTAL_ITEMS = 500`, ...) and the repository contains no
construction-time validation code at all, so the `InvalidConfiguration`
condition exists only in the specification's error-handling design. -/
inductive ConfigError where
  | invalidConfiguration
deriving DecidableEq, Repr

/-- A validated windowing configuration: the layout parameters fixed at
construction time (item count, per-item pixel height, symmetric buffer). -/
structure WindowConfig where
  itemCount : ℕ
  itemHeight : ℚ
  bufferCount : ℕ

/-- Modelled from the spec: construction of a windowing instance, which the
repository's code never performs (its constants are literals).  Per the spec,
`itemHeight ≤ 0` or `N < 0` supplied at setup is rejected immediately at
construction with `InvalidConfiguration`, before any per-scroll computation
can run. -/
def mkWindowInstance (N : ℤ) (itemHeight : ℚ) (bufferCount : ℕ) :
    Except ConfigError WindowConfig :=
  if itemHeight ≤ 0 ∨ N < 0 then Except.error ConfigError.invalidConfiguration
  else Except.ok
    { itemCount := N.toNat, itemHeight := itemHeight, bufferCount := bufferCount }

/-- The per-scroll computation, reachable only through a successfully
constructed configuration. -/
def WindowConfig.window (cfg : WindowConfig) (viewportHeight scrollTop : ℚ) :
    WindowResult :=
  computeWindow cfg.itemCount cfg.itemHeight cfg.bufferCount viewportHeight
    scrollTop

/-- Claim C4: constructing a windowing instance with itemHeight ≤ 0 or N < 0
fails immediately at construction with InvalidConfiguration, and never yields
a configuration on which the per-scroll computation could run (so in
particular itemHeight = 0 never reaches the index computation or divides by
zero). -/
theorem invalid_config_rejected (N : ℤ) (itemHeight : ℚ) (bufferCount : ℕ)
    (hbad : itemHeight ≤ 0 ∨ N < 0) :
    mkWindowInstance N itemHeight bufferCount =
        Except.error ConfigError.invalidConfiguration ∧
      ∀ cfg : WindowConfig,
        mkWindowInstance N itemHeight bufferCount ≠ Except.ok cfg := by
  constructor
  · simp [mkWindowInstance, hbad]
  · intro cfg hcon
    rw [mkWindowInstance, if_pos hbad] at hcon
    exact Except.noConfusion hcon

/-- Witness for C4 at N=500, itemHeight=0, bufferCount=20. -/
theorem invalid_config_rejected_witness :
    ((0 : ℚ) ≤ 0 ∨ (500 : ℤ) < 0) ∧
      (mkWindowInstance 500 0 20 =
          Except.error ConfigError.invalidConfiguration ∧
        ∀ cfg : WindowConfig, mkWindowInstance 500 0 20 ≠ Except.ok cfg) :=
  ⟨Or.inl (le_refl 0),
    invalid_config_rejected 500 0 20 (Or.inl (le_refl 0))⟩
